import Mathlib

/-!
Verification development for the Flood_Map pipeline
(src/Flood_Map/A1_Preprocess_DEM.py, A2_Streams_Watersheds.py, B1_HAND.py,
B2_FloodMasks.py).

The numeric code of B2_FloodMasks.py is embedded over exact rationals: the
source computes with Python floats, but every comparison settled below has a
margin far larger than double-precision rounding, so the rational model is
faithful for the properties at stake.  Nodata handling is explicit: a raster
cell is an `Option` value, `none` standing for nodata/NaN.
-/

namespace FloodMap

/-- Runoff-model dispatch of `_runoff_depth_from_rainfall` in
B2_FloodMasks.py: the Python code tests `mode.upper() == "CN"` and otherwise
falls through to the coefficient law, so the mode is a two-valued choice. -/
inductive RunoffMode
  | CN
  | Coefficient
deriving DecidableEq

/-- Embedding of `_runoff_depth_from_rainfall` (B2_FloodMasks.py lines
123-131), clause for clause in the source's order: early return on `P <= 0`,
curve-number branch with the `P <= Ia or S <= 0` guard, and the coefficient
fall-through `max(c_eff * P, 0)`.  A pure function, as in the source. -/
def runoff_depth_from_rainfall (P_m : ℚ) (mode : RunoffMode)
    (cn ia_r c_eff : ℚ) : ℚ :=
  if P_m ≤ 0 then 0
  else if mode = RunoffMode.CN then
    let S_m := max ((25400 / cn - 254) / 1000) 0
    let Ia_m := ia_r * S_m
    if P_m ≤ Ia_m ∨ S_m ≤ 0 then 0
    else max ((P_m - Ia_m) ^ 2 / (P_m + (1 - ia_r) * S_m)) 0
  else max (c_eff * P_m) 0

/-- Modelled from the spec (section 4.3 Runoff Model), word for word:
`P ≤ 0 → Q = 0`; CurveNumber mode `S = max((25400/CN − 254)/1000, 0)`,
`Ia = ia_ratio·S`, `Q = 0` when `P ≤ Ia` or `S ≤ 0`, else
`Q = max((P − Ia)² / (P + (1 − ia_ratio)·S), 0)`; Coefficient mode
`Q = max(coefficient·P, 0)`.  Kept separate from the source embedding so the
two can be compared (claim C7). -/
def runoff_depth_spec (P : ℚ) (mode : RunoffMode)
    (cn ia_r c_eff : ℚ) : ℚ :=
  if P ≤ 0 then 0
  else
    match mode with
    | RunoffMode.CN =>
        let S := max ((25400 / cn - 254) / 1000) 0
        let Ia := ia_r * S
        if P ≤ Ia ∨ S ≤ 0 then 0
        else max ((P - Ia) ^ 2 / (P + (1 - ia_r) * S)) 0
    | RunoffMode.Coefficient => max (c_eff * P) 0

/-- Embedding of the per-zone closure `volume_at` (B2_FloodMasks.py lines
166-170).  On the sorted value array, `np.searchsorted(hv, h, side="right")`
is the length of the initial run of entries `≤ h`, and `prefix[k-1]` is the
sum of the first `k` entries, that is of `hv.take k`. -/
def volume_at (hv : List ℚ) (cell_area : ℚ) (h : ℚ) : ℚ :=
  let k := (hv.takeWhile (fun x => decide (x ≤ h))).length
  if k = 0 then 0
  else cell_area * ((k : ℚ) * h - (hv.take k).sum)

/-- Maximum of a value list, as `numpy.ndarray.max` computes it on a
nonempty array (`0` on the empty array, which the source never reaches). -/
def npMax : List ℚ → ℚ
  | [] => 0
  | x :: xs => xs.foldl max x

/-- Embedding of the bisection loop of `_build_zone_stage_threshold_raster`
(B2_FloodMasks.py lines 176-179): `n` remaining iterations, midpoint
`0.5 * (h_lo + h_hi)`, the bound moving toward the side consistent with the
target volume; the source keeps the final `h_hi` as the answer. -/
def bisect (hv : List ℚ) (cell_area V_target : ℚ) :
    Nat → ℚ → ℚ → ℚ × ℚ
  | 0, h_lo, h_hi => (h_lo, h_hi)
  | n + 1, h_lo, h_hi =>
    let h_mid := (1 / 2) * (h_lo + h_hi)
    if volume_at hv cell_area h_mid < V_target then
      bisect hv cell_area V_target n h_mid h_hi
    else
      bisect hv cell_area V_target n h_lo h_mid

/-- Body of the per-zone solver of `_build_zone_stage_threshold_raster`
(B2_FloodMasks.py lines 161-180) after `hv.sort()`: the upper bracket is
`min(max_stage_cap, hv.max() + 0.01)`; a zone whose volume at that bracket is
below target is capped there; otherwise 40 bisection iterations run and the
final `h_hi` is the zone's height. -/
def solveZoneSorted (hv : List ℚ) (cell_area V_target max_stage_cap_m : ℚ) : ℚ :=
  let h_hi0 := min max_stage_cap_m (npMax hv + 1 / 100)
  if volume_at hv cell_area h_hi0 < V_target then h_hi0
  else (bisect hv cell_area V_target 40 0 h_hi0).2

/-- Embedding of the per-zone branch of `_build_zone_stage_threshold_raster`
(B2_FloodMasks.py lines 156-180): a zone with no finite HAND cells gets
height `0` (lines 158-160); otherwise the finite values are sorted in place
(line 161) and the solver body runs on them. -/
def solveZone (hv_raw : List ℚ) (cell_area V_target max_stage_cap_m : ℚ) : ℚ :=
  match hv_raw with
  | [] => 0
  | x :: xs =>
    solveZoneSorted (List.insertionSort (fun a b => a ≤ b) (x :: xs))
      cell_area V_target max_stage_cap_m

/-! ### Raster model and the full zonal stage-height builder -/

/-- Grid geometry of a raster as arcpy exposes it: mean cell width and
height, and the column/row counts. -/
structure GridMeta where
  cellWidth : ℚ
  cellHeight : ℚ
  width : Nat
  height : Nat
deriving DecidableEq

/-- A HAND raster: grid geometry plus cell values; `none` is nodata, which
`RasterToNumPyArray(..., nodata_to_value=nan)` turns into NaN and the
`np.isfinite` filter then drops. -/
structure HandRaster where
  meta : GridMeta
  data : List (Option ℚ)

/-- A watershed zone raster: grid geometry plus integer zone ids; `none` is
nodata. -/
structure ZoneRaster where
  meta : GridMeta
  data : List (Option Int)

/-- The `same_grid` test of B2_FloodMasks.py lines 139-142: mean cell WIDTH,
raster width and raster height are compared; the cell height is not. -/
def same_grid (a b : GridMeta) : Prop :=
  a.cellWidth = b.cellWidth ∧ a.width = b.width ∧ a.height = b.height

instance (a b : GridMeta) : Decidable (same_grid a b) := by
  unfold same_grid; infer_instance

/-- Modelled from the spec (section 4.5 Preconditions and the data model):
identical grid geometry means same cell size — an (x, y) pair in the data
model — and same width/height dimensions.  Kept separate from `same_grid`
so claim C6 can compare the two. -/
def identical_grid_geometry (a b : GridMeta) : Prop :=
  a.cellWidth = b.cellWidth ∧ a.cellHeight = b.cellHeight ∧
    a.width = b.width ∧ a.height = b.height

instance (a b : GridMeta) : Decidable (identical_grid_geometry a b) := by
  unfold identical_grid_geometry; infer_instance

/-- Error text of the grid-alignment failure (B2_FloodMasks.py line 144),
the spec's `GridMismatchError`. -/
def gridMismatchMsg : String := "HAND and Watershed rasters are not grid-aligned."

/-- Error text of the empty-zone failure (B2_FloodMasks.py line 150). -/
def noZonesMsg : String := "No watershed zones found."

/-- Sentinel that `RasterToNumPyArray(wshed, nodata_to_value=-2147483648)`
writes into nodata cells (B2_FloodMasks.py line 146). -/
def ws_nodata_sentinel : Int := -2147483648

/-- The watershed array as the source reads it: nodata replaced by the
sentinel (B2_FloodMasks.py line 146). -/
def ws_arr_of (wshed : ZoneRaster) : List Int :=
  wshed.data.map (fun o => o.getD ws_nodata_sentinel)

/-- The zone id list of B2_FloodMasks.py line 148: unique values of the
watershed array restricted to nonnegative ids. -/
def zones_of (ws_arr : List Int) : List Int :=
  (ws_arr.filter (fun z => decide (0 ≤ z))).dedup

/-- The finite HAND values of one zone (B2_FloodMasks.py lines 156-157):
cells whose watershed id equals `z`, with NaN (nodata) cells dropped. -/
def hv_of (hand_data : List (Option ℚ)) (ws_arr : List Int) (z : Int) : List ℚ :=
  (hand_data.zip ws_arr).filterMap (fun p =>
    match p.1 with
    | some hval => if p.2 = z then some hval else none
    | none => none)

/-- The `zone_to_h` dictionary of B2_FloodMasks.py lines 153-180: for each
nonnegative zone id, the zone's finite HAND values are gathered, the target
volume is `Qm * (hv.size * cell_area)` with `cell_area` the product of the
HAND raster's mean cell width and height (line 147), and the per-zone
solver produces the stage height. -/
def zone_to_h_of (hand : HandRaster) (wshed : ZoneRaster) (Qm cap : ℚ) :
    List (Int × ℚ) :=
  (zones_of (ws_arr_of wshed)).map (fun z =>
    (z, solveZone (hv_of hand.data (ws_arr_of wshed) z)
      (hand.meta.cellWidth * hand.meta.cellHeight)
      (Qm * (((hv_of hand.data (ws_arr_of wshed) z).length : ℚ) *
        (hand.meta.cellWidth * hand.meta.cellHeight))) cap))

/-- Embedding of `_build_zone_stage_threshold_raster` (B2_FloodMasks.py
lines 133-185).  Returns the data of the `Hthresh_*` raster produced by
`Reclassify(wshed, "Value", remap, missing_values="NODATA")` — each cell's
zone id remapped to its solved height, nodata and unmapped ids to nodata —
together with the zone-to-height association and `Qm`.  The two fatal
checks (grid alignment, empty zone list) happen before any output exists,
exactly as the source raises before `Reclassify` runs. -/
def build_zone_stage_threshold_raster (hand : HandRaster) (wshed : ZoneRaster)
    (rainfall_depth_m : ℚ) (runoff_mode : RunoffMode)
    (cn ia_r c_eff max_stage_cap_m : ℚ) :
    Except String (List (Option ℚ) × List (Int × ℚ) × ℚ) :=
  if ¬ same_grid hand.meta wshed.meta then Except.error gridMismatchMsg
  else if zones_of (ws_arr_of wshed) = [] then Except.error noZonesMsg
  else
    Except.ok
      (wshed.data.map (fun o => o.bind (fun v =>
        (zone_to_h_of hand wshed
          (runoff_depth_from_rainfall rainfall_depth_m runoff_mode cn ia_r
            c_eff) max_stage_cap_m).lookup v)),
       zone_to_h_of hand wshed
         (runoff_depth_from_rainfall rainfall_depth_m runoff_mode cn ia_r
           c_eff) max_stage_cap_m,
       runoff_depth_from_rainfall rainfall_depth_m runoff_mode cn ia_r c_eff)

/-- Cell-wise `Con(hand <= thresh, 1, 0)` of B2_FloodMasks.py line 227:
nodata in either operand propagates to nodata. -/
def conLessEq (x t : Option ℚ) : Option ℚ :=
  match x, t with
  | some a, some b => some (if a ≤ b then 1 else 0)
  | _, _ => none

/-- The rainfall-driven flood mask of B2_FloodMasks.py line 227, cell list
of `Con(Raster(hand) <= Raster(hthresh), 1, 0)`. -/
def rainMaskCells (hand_data thresh_data : List (Option ℚ)) : List (Option ℚ) :=
  List.zipWith conLessEq hand_data thresh_data

/-! ### B1_HAND.py surface resolution (claim C1) -/

/-- The `outputs` table of the manifest that A2_Streams_Watersheds.py writes
(lines 188-201): every key the source stores, in the source's order.  The
`drop_clean_nonull` entry is always present and holds the path of the
null-filled cleaned percent-drop raster, never the filled DEM. -/
def a2ManifestOutputs (micro main drop_clean drop_clean_nonull slope_cont
    combine streamlink streamorder streams_fc watershed_ras watershed_fc :
    String) : List (String × String) :=
  [("micro", micro), ("main", main),
   ("drop_clean", drop_clean), ("drop_clean_nonull", drop_clean_nonull),
   ("slope_cont", slope_cont), ("combine", combine),
   ("streamlink", streamlink), ("streamorder", streamorder),
   ("streams_fc", streams_fc),
   ("watershed_ras", watershed_ras), ("watershed_fc", watershed_fc)]

/-- Embedding of the surface resolution of B1_HAND.py lines 150-157: the
Python conditional expression prefers a truthy `drop_clean_nonull` entry of
the A2 manifest, then the A2 `fill` entry, and only then falls back to the
`fill` entry of the A1 manifest; an unresolvable surface is a fatal error.
The resolved path is what `run` passes as `surface_path` to the vertical
`FlowDistance` call (lines 176-183). -/
def resolveSurfacePath (a2outs : List (String × String))
    (a1outs : Option (List (String × String))) : Except String String :=
  let fp : Option String :=
    match a2outs.lookup "drop_clean_nonull" with
    | some p => if p = "" then a2outs.lookup "fill" else some p
    | none => a2outs.lookup "fill"
  match fp with
  | some p => if p = "" then resolveFromA1 a1outs else Except.ok p
  | none => resolveFromA1 a1outs
where
  /-- The A1 fallback of B1_HAND.py lines 152-157. -/
  resolveFromA1 : Option (List (String × String)) → Except String String
    | none => Except.error "Cannot resolve Fill surface from manifests."
    | some outs1 =>
      match outs1.lookup "fill" with
      | some p => Except.ok p
      | none => Except.error "Cannot resolve Fill surface from manifests."

/-! ### Concrete fixtures used by witnesses and counterexamples -/

/-- A 2x1 HAND raster with two stream cells (HAND = 0). -/
def handFix : HandRaster := ⟨⟨1, 1, 2, 1⟩, [some 0, some 0]⟩

/-- A 2x1 watershed raster: one cell of zone 1, one nodata cell. -/
def wshedFix : ZoneRaster := ⟨⟨1, 1, 2, 1⟩, [some 1, none]⟩

/-- Same data as `wshedFix` but three columns wide: width mismatch. -/
def wshedFixWide : ZoneRaster := ⟨⟨1, 1, 3, 1⟩, [some 1, none]⟩

/-- Same data and dimensions as `wshedFix` but with cell height 5 instead
of 1: the cell size differs while everything `same_grid` checks agrees. -/
def wshedFixTallCell : ZoneRaster := ⟨⟨1, 5, 2, 1⟩, [some 1, none]⟩

/-- A 1x1 HAND raster holding a single stream cell (HAND = 0). -/
def handOne : HandRaster := ⟨⟨1, 1, 1, 1⟩, [some 0]⟩

/-- A 1x1 watershed raster holding zone 1. -/
def wshedOne : ZoneRaster := ⟨⟨1, 1, 1, 1⟩, [some 1]⟩

/-! ### Equation lemmas for `volume_at` -/

theorem volume_at_nil (a h : ℚ) : volume_at [] a h = 0 := rfl

theorem volume_at_cons_pos (x : ℚ) (xs : List ℚ) (a h : ℚ) (hx : x ≤ h) :
    volume_at (x :: xs) a h = a * (h - x) + volume_at xs a h := by
  simp only [volume_at, List.takeWhile_cons, decide_eq_true hx, if_true]
  by_cases hk : (xs.takeWhile fun y => decide (y ≤ h)).length = 0
  · simp only [hk, List.length_cons, List.take_succ_cons, List.sum_cons, if_neg
      (Nat.succ_ne_zero 0), if_pos rfl, List.take_zero, List.sum_nil]
    push_cast
    ring
  · simp only [List.length_cons, List.take_succ_cons, List.sum_cons,
      if_neg (Nat.succ_ne_zero _), if_neg hk]
    push_cast
    ring

theorem volume_at_cons_neg (x : ℚ) (xs : List ℚ) (a h : ℚ) (hx : ¬ x ≤ h) :
    volume_at (x :: xs) a h = 0 := by
  simp [volume_at, List.takeWhile_cons, decide_eq_false hx]

theorem volume_at_nonneg (hv : List ℚ) (a h : ℚ) (ha : 0 ≤ a) :
    0 ≤ volume_at hv a h := by
  induction hv with
  | nil => simp [volume_at_nil]
  | cons x xs ih =>
    by_cases hx : x ≤ h
    · rw [volume_at_cons_pos x xs a h hx]
      have h1 : 0 ≤ a * (h - x) := mul_nonneg ha (by linarith)
      linarith
    · rw [volume_at_cons_neg x xs a h hx]

/-! ### Lemmas about the bisection loop -/

theorem bisect_zero (hv : List ℚ) (a V lo hi : ℚ) :
    bisect hv a V 0 lo hi = (lo, hi) := rfl

theorem bisect_succ (hv : List ℚ) (a V : ℚ) (n : Nat) (lo hi : ℚ) :
    bisect hv a V (n + 1) lo hi =
      if volume_at hv a ((1 / 2) * (lo + hi)) < V then
        bisect hv a V n ((1 / 2) * (lo + hi)) hi
      else
        bisect hv a V n lo ((1 / 2) * (lo + hi)) := rfl

theorem bisect_snd_bounds (hv : List ℚ) (a V : ℚ) :
    ∀ (n : Nat) (lo hi : ℚ), lo ≤ hi →
      lo ≤ (bisect hv a V n lo hi).2 ∧ (bisect hv a V n lo hi).2 ≤ hi := by
  intro n
  induction n with
  | zero =>
    intro lo hi hle
    rw [bisect_zero]
    exact ⟨hle, le_refl hi⟩
  | succ n ih =>
    intro lo hi hle
    rw [bisect_succ]
    by_cases hc : volume_at hv a ((1 / 2) * (lo + hi)) < V
    · rw [if_pos hc]
      obtain ⟨h1, h2⟩ := ih ((1 / 2) * (lo + hi)) hi (by linarith)
      exact ⟨le_trans (by linarith) h1, h2⟩
    · rw [if_neg hc]
      obtain ⟨h1, h2⟩ := ih lo ((1 / 2) * (lo + hi)) (by linarith)
      exact ⟨h1, le_trans h2 (by linarith)⟩

theorem bisect_halving (hv : List ℚ) (a : ℚ) (ha : 0 ≤ a) :
    ∀ (n : Nat) (hi : ℚ), bisect hv a 0 n 0 hi = (0, hi / 2 ^ n) := by
  intro n
  induction n with
  | zero => intro hi; rw [bisect_zero, pow_zero, div_one]
  | succ n ih =>
    intro hi
    rw [bisect_succ,
      if_neg (not_lt.2 (volume_at_nonneg hv a ((1 / 2) * (0 + hi)) ha)),
      ih ((1 / 2) * (0 + hi))]
    rw [Prod.mk.injEq]
    exact ⟨rfl, by ring⟩

theorem bisect_invariant (hv : List ℚ) (a V : ℚ) :
    ∀ (n : Nat) (lo hi : ℚ), lo ≤ hi →
      volume_at hv a lo < V → ¬ volume_at hv a hi < V →
      volume_at hv a (bisect hv a V n lo hi).1 < V ∧
      ¬ volume_at hv a (bisect hv a V n lo hi).2 < V ∧
      lo ≤ (bisect hv a V n lo hi).1 ∧
      (bisect hv a V n lo hi).2 - (bisect hv a V n lo hi).1 =
        (hi - lo) / 2 ^ n := by
  intro n
  induction n with
  | zero =>
    intro lo hi hle hlo hhi
    rw [bisect_zero]
    exact ⟨hlo, hhi, le_refl lo, by rw [pow_zero, div_one]⟩
  | succ n ih =>
    intro lo hi hle hlo hhi
    rw [bisect_succ]
    by_cases hc : volume_at hv a ((1 / 2) * (lo + hi)) < V
    · rw [if_pos hc]
      obtain ⟨h1, h2, h3, h4⟩ := ih ((1 / 2) * (lo + hi)) hi (by linarith) hc hhi
      refine ⟨h1, h2, le_trans (by linarith) h3, ?_⟩
      rw [h4]; ring
    · rw [if_neg hc]
      obtain ⟨h1, h2, h3, h4⟩ := ih lo ((1 / 2) * (lo + hi)) (by linarith) hlo hc
      refine ⟨h1, h2, h3, ?_⟩
      rw [h4]; ring

/-! ### Lemmas about `npMax` and the sorted solver body -/

theorem le_foldl_max (l : List ℚ) : ∀ init : ℚ, init ≤ l.foldl max init := by
  induction l with
  | nil => intro init; exact le_refl init
  | cons z zs ih =>
    intro init
    rw [List.foldl_cons]
    exact le_trans (le_max_left init z) (ih (max init z))

theorem npMax_cons_nonneg (y : ℚ) (ys : List ℚ) (hy : 0 ≤ y) :
    0 ≤ npMax (y :: ys) := by
  simpa [npMax] using le_trans hy (le_foldl_max ys y)

theorem solveZoneSorted_capped (hv : List ℚ) (a V cap : ℚ)
    (hc : volume_at hv a (min cap (npMax hv + 1 / 100)) < V) :
    solveZoneSorted hv a V cap = min cap (npMax hv + 1 / 100) := by
  simp only [solveZoneSorted]
  rw [if_pos hc]

theorem solveZoneSorted_bisect (hv : List ℚ) (a V cap : ℚ)
    (hc : ¬ volume_at hv a (min cap (npMax hv + 1 / 100)) < V) :
    solveZoneSorted hv a V cap =
      (bisect hv a V 40 0 (min cap (npMax hv + 1 / 100))).2 := by
  simp only [solveZoneSorted]
  rw [if_neg hc]

theorem solveZone_nil (a V cap : ℚ) : solveZone [] a V cap = 0 := rfl

theorem solveZone_cons (x : ℚ) (xs : List ℚ) (a V cap : ℚ) :
    solveZone (x :: xs) a V cap =
      solveZoneSorted (List.insertionSort (fun a b => a ≤ b) (x :: xs))
        a V cap := rfl

theorem solveZone_bounds (hv_raw : List ℚ) (a V cap : ℚ)
    (hnn : ∀ x ∈ hv_raw, 0 ≤ x) (hcap : 0 ≤ cap) :
    0 ≤ solveZone hv_raw a V cap ∧ solveZone hv_raw a V cap ≤ cap := by
  cases hv_raw with
  | nil => rw [solveZone_nil]; exact ⟨le_refl 0, hcap⟩
  | cons x xs =>
    rw [solveZone_cons]
    have hlen : (List.insertionSort (fun a b => a ≤ b) (x :: xs)).length =
        (x :: xs).length := List.length_insertionSort _ _
    obtain ⟨y, ys, hyys⟩ : ∃ y ys,
        List.insertionSort (fun a b => a ≤ b) (x :: xs) = y :: ys := by
      cases hE : List.insertionSort (fun a b => a ≤ b) (x :: xs) with
      | nil => rw [hE] at hlen; simp at hlen
      | cons y ys => exact ⟨y, ys, rfl⟩
    have hy0 : 0 ≤ y := by
      apply hnn
      have : y ∈ List.insertionSort (fun a b => a ≤ b) (x :: xs) := by
        rw [hyys]; exact List.mem_cons_self y ys
      exact (List.mem_insertionSort _).1 this
    have hmax0 : 0 ≤ npMax (List.insertionSort (fun a b => a ≤ b) (x :: xs)) := by
      rw [hyys]; exact npMax_cons_nonneg y ys hy0
    have hhi0 : 0 ≤ min cap
        (npMax (List.insertionSort (fun a b => a ≤ b) (x :: xs)) + 1 / 100) :=
      le_min hcap (by linarith)
    have hhicap : min cap
        (npMax (List.insertionSort (fun a b => a ≤ b) (x :: xs)) + 1 / 100) ≤
          cap := min_le_left _ _
    by_cases hc : volume_at (List.insertionSort (fun a b => a ≤ b) (x :: xs)) a
        (min cap (npMax (List.insertionSort (fun a b => a ≤ b) (x :: xs)) +
          1 / 100)) < V
    · rw [solveZoneSorted_capped _ _ _ _ hc]
      exact ⟨hhi0, hhicap⟩
    · rw [solveZoneSorted_bisect _ _ _ _ hc]
      obtain ⟨h1, h2⟩ := bisect_snd_bounds
        (List.insertionSort (fun a b => a ≤ b) (x :: xs)) a V 40 0 _ hhi0
      exact ⟨h1, le_trans h2 hhicap⟩

/-! ### The synthetic fixture of spec section 8: HAND values
`[0.0, 0.1, 0.2, 0.3]`, cell area `1.0`, target volume `0.15` -/

theorem fixture_sorted :
    List.insertionSort (fun a b => a ≤ b) [0, 1/10, 2/10, 3/10] =
      ([0, 1/10, 2/10, 3/10] : List ℚ) := by
  norm_num [List.insertionSort, List.orderedInsert]

theorem fixture_npMax : npMax [0, 1/10, 2/10, 3/10] = 3/10 := by
  norm_num [npMax, List.foldl, max_def]

theorem fixture_lt_of_vol_lt (h : ℚ)
    (hv : volume_at [0, 1/10, 2/10, 3/10] 1 h < 15/100) : h < 1/8 := by
  by_contra hc
  push_neg at hc
  have h0 : (0:ℚ) ≤ h := by linarith
  have h1 : (1:ℚ)/10 ≤ h := by linarith
  rw [volume_at_cons_pos _ _ _ _ h0, volume_at_cons_pos _ _ _ _ h1] at hv
  by_cases h2 : (2:ℚ)/10 ≤ h
  · rw [volume_at_cons_pos _ _ _ _ h2] at hv
    by_cases h3 : (3:ℚ)/10 ≤ h
    · rw [volume_at_cons_pos _ _ _ _ h3, volume_at_nil] at hv
      linarith
    · rw [volume_at_cons_neg _ _ _ _ h3] at hv
      linarith
  · rw [volume_at_cons_neg _ _ _ _ h2] at hv
    linarith

theorem fixture_le_of_vol_ge (h : ℚ)
    (hv : ¬ volume_at [0, 1/10, 2/10, 3/10] 1 h < 15/100) : 1/8 ≤ h := by
  by_contra hc
  push_neg at hc
  apply hv
  by_cases h0 : (0:ℚ) ≤ h
  · have h2 : ¬ (2:ℚ)/10 ≤ h := by linarith
    rw [volume_at_cons_pos _ _ _ _ h0]
    by_cases h1 : (1:ℚ)/10 ≤ h
    · rw [volume_at_cons_pos _ _ _ _ h1, volume_at_cons_neg _ _ _ _ h2]
      linarith
    · rw [volume_at_cons_neg _ _ _ _ h1]
      linarith
  · rw [volume_at_cons_neg _ _ _ _ h0]
    linarith

theorem fixture_solve_bounds :
    1/8 ≤ solveZone [0, 1/10, 2/10, 3/10] 1 (15/100) 1 ∧
    solveZone [0, 1/10, 2/10, 3/10] 1 (15/100) 1 ≤ 1/8 + 31/100/2^40 := by
  have hhi0 : min (1:ℚ) (npMax [0, 1/10, 2/10, 3/10] + 1/100) = 31/100 := by
    rw [fixture_npMax]
    norm_num
  have hvol31 : ¬ volume_at [0, 1/10, 2/10, 3/10] 1 (31/100) < 15/100 := by
    rw [volume_at_cons_pos _ _ _ _ (by norm_num : (0:ℚ) ≤ 31/100),
      volume_at_cons_pos _ _ _ _ (by norm_num : (1:ℚ)/10 ≤ 31/100),
      volume_at_cons_pos _ _ _ _ (by norm_num : (2:ℚ)/10 ≤ 31/100),
      volume_at_cons_pos _ _ _ _ (by norm_num : (3:ℚ)/10 ≤ 31/100),
      volume_at_nil]
    norm_num
  have hlo : volume_at [0, 1/10, 2/10, 3/10] 1 0 < 15/100 := by
    rw [volume_at_cons_pos _ _ _ _ (le_refl (0:ℚ)),
      volume_at_cons_neg _ _ _ _ (by norm_num : ¬ (1:ℚ)/10 ≤ 0)]
    norm_num
  rw [solveZone_cons, fixture_sorted,
    solveZoneSorted_bisect _ _ _ _ (by rw [hhi0]; exact hvol31), hhi0]
  obtain ⟨hfst, hsnd, hge0, hwidth⟩ :=
    bisect_invariant [0, 1/10, 2/10, 3/10] 1 (15/100) 40 0 (31/100)
      (by norm_num) hlo hvol31
  rw [sub_zero] at hwidth
  constructor
  · exact fixture_le_of_vol_ge _ hsnd
  · have h1 := fixture_lt_of_vol_lt _ hfst
    linarith

/-! ### Runoff-model helper lemmas -/

theorem runoff_zero_rain (mode : RunoffMode) (cn ia_r c_eff : ℚ) :
    runoff_depth_from_rainfall 0 mode cn ia_r c_eff = 0 := by
  simp [runoff_depth_from_rainfall]

theorem runoff_cn100_eq_zero (P ia_r c_eff : ℚ) (hP : 0 < P) :
    runoff_depth_from_rainfall P RunoffMode.CN 100 ia_r c_eff = 0 := by
  have h1 : ¬ P ≤ 0 := not_le.2 hP
  norm_num [runoff_depth_from_rainfall, h1]

/-! ### Association-list and cell-indexing helper lemmas -/

theorem lookup_eq_none_of_keys_nonneg (l : List (Int × ℚ))
    (hk : ∀ p ∈ l, 0 ≤ p.1) (z : Int) (hz : z < 0) : l.lookup z = none := by
  induction l with
  | nil => rfl
  | cons p t ih =>
    obtain ⟨k, v⟩ := p
    have hne : (z == k) = false := by
      rw [beq_eq_false_iff_ne]
      intro he
      rw [he] at hz
      exact absurd (hk (k, v) (List.mem_cons_self _ _)) (not_le.2 hz)
    simp only [List.lookup, hne]
    exact ih (fun q hq => hk q (List.mem_cons_of_mem _ hq))

theorem getD_map_of_none_fixed (l : List (Option Int))
    (f : Option Int → Option ℚ) (i : Nat) (hf : f none = none) :
    (l.map f).getD i none = f (l.getD i none) := by
  induction l generalizing i with
  | nil => simp [List.getD_nil, hf]
  | cons x t ih =>
    cases i with
    | zero => simp [List.getD_cons_zero]
    | succ n => simpa [List.getD_cons_succ] using ih n

theorem conLessEq_none_right (x : Option ℚ) : conLessEq x none = none := by
  cases x <;> rfl

theorem rainMask_getD_none (hd td : List (Option ℚ)) (i : Nat)
    (ht : td.getD i none = none) :
    (rainMaskCells hd td).getD i none = none := by
  unfold rainMaskCells
  induction hd generalizing td i with
  | nil => simp [List.getD_nil]
  | cons x hs ih =>
    cases td with
    | nil => simp [List.getD_nil]
    | cons y ts =>
      cases i with
      | zero =>
        rw [List.getD_cons_zero] at ht
        rw [List.zipWith_cons_cons, List.getD_cons_zero, ht,
          conLessEq_none_right]
      | succ n =>
        rw [List.getD_cons_succ] at ht
        rw [List.zipWith_cons_cons, List.getD_cons_succ]
        exact ih ts n ht

/-! ### Inversion of the zonal builder -/

theorem zones_of_nonneg (ws_arr : List Int) (z : Int)
    (hz : z ∈ zones_of ws_arr) : 0 ≤ z := by
  unfold zones_of at hz
  rw [List.mem_dedup] at hz
  exact of_decide_eq_true (List.mem_filter.1 hz).2

theorem zone_to_h_keys_nonneg (hand : HandRaster) (wshed : ZoneRaster)
    (Qm cap : ℚ) : ∀ p ∈ zone_to_h_of hand wshed Qm cap, 0 ≤ p.1 := by
  intro p hp
  unfold zone_to_h_of at hp
  obtain ⟨z, hz, hpe⟩ := List.mem_map.1 hp
  rw [← hpe]
  exact zones_of_nonneg _ z hz

theorem build_ok_inv (hand : HandRaster) (wshed : ZoneRaster) (P : ℚ)
    (mode : RunoffMode) (cn ia_r c_eff cap : ℚ)
    (thresh : List (Option ℚ)) (z2h : List (Int × ℚ)) (Qm : ℚ)
    (hok : build_zone_stage_threshold_raster hand wshed P mode cn ia_r c_eff
      cap = Except.ok (thresh, z2h, Qm)) :
    thresh = wshed.data.map (fun o => o.bind (fun v => z2h.lookup v)) ∧
    z2h = zone_to_h_of hand wshed
      (runoff_depth_from_rainfall P mode cn ia_r c_eff) cap := by
  unfold build_zone_stage_threshold_raster at hok
  by_cases hsg : ¬ same_grid hand.meta wshed.meta
  · rw [if_pos hsg] at hok
    exact absurd hok (by simp)
  · rw [if_neg hsg] at hok
    by_cases hz : zones_of (ws_arr_of wshed) = []
    · rw [if_pos hz] at hok
      exact absurd hok (by simp)
    · rw [if_neg hz] at hok
      simp only [Except.ok.injEq, Prod.mk.injEq] at hok
      obtain ⟨h1, h2, _⟩ := hok
      exact ⟨h1.symm ▸ (h2.symm ▸ rfl), h2.symm⟩

/-! ### Concrete evaluations of the solver and the builder -/

theorem solveZone_singleton_capped (V : ℚ) (hV : 1/100 < V) :
    solveZone [0] 1 V 1 = 1/100 := by
  rw [solveZone_cons]
  have hs : List.insertionSort (fun a b => a ≤ b) [(0:ℚ)] = [0] := rfl
  rw [hs]
  have hnp : npMax [(0:ℚ)] = 0 := rfl
  have hhi0 : min (1:ℚ) (npMax [(0:ℚ)] + 1/100) = 1/100 := by
    rw [hnp]; norm_num
  have hc : volume_at [(0:ℚ)] 1 (min 1 (npMax [(0:ℚ)] + 1/100)) < V := by
    rw [hhi0, volume_at_cons_pos _ _ _ _ (by norm_num : (0:ℚ) ≤ 1/100),
      volume_at_nil]
    linarith
  rw [solveZoneSorted_capped _ _ _ _ hc, hhi0]

theorem solveZone_zero_target (x : ℚ) (xs : List ℚ) (a cap : ℚ) (ha : 0 ≤ a) :
    solveZone (x :: xs) a 0 cap =
      min cap (npMax (List.insertionSort (fun a b => a ≤ b) (x :: xs)) +
        1/100) / 2 ^ 40 := by
  rw [solveZone_cons,
    solveZoneSorted_bisect _ _ _ _ (not_lt.2 (volume_at_nonneg _ _ _ ha)),
    bisect_halving _ _ ha 40 _]

theorem build_eval_fix (m2 : GridMeta) (hcw : m2.cellWidth = 1)
    (hw : m2.width = 2) (hh : m2.height = 1) :
    build_zone_stage_threshold_raster handFix ⟨m2, [some 1, none]⟩ 10
      RunoffMode.Coefficient 90 (1/5) (4/5) 1 =
      Except.ok ([some (1/100), none], [(1, 1/100)], 8) := by
  have hsg : same_grid handFix.meta m2 := ⟨hcw.symm, hw.symm, hh.symm⟩
  have hws : ws_arr_of ⟨m2, [some 1, none]⟩ = [1, ws_nodata_sentinel] := rfl
  have hzones : zones_of [1, ws_nodata_sentinel] = [1] := by decide
  have hQm : runoff_depth_from_rainfall 10 RunoffMode.Coefficient 90 (1/5)
      (4/5) = 8 := by
    simp only [runoff_depth_from_rainfall]
    rw [if_neg (by norm_num : ¬ (10:ℚ) ≤ 0),
      if_neg (fun h => RunoffMode.noConfusion h)]
    norm_num
  have hhv : hv_of handFix.data [1, ws_nodata_sentinel] 1 = [0] := by decide
  have hz2h : zone_to_h_of handFix ⟨m2, [some 1, none]⟩ 8 1 =
      [(1, 1/100)] := by
    unfold zone_to_h_of
    rw [hws, hzones]
    simp only [List.map_cons, List.map_nil, hhv]
    have harea : handFix.meta.cellWidth * handFix.meta.cellHeight = 1 := by
      norm_num [handFix]
    rw [harea]
    have harg : (8:ℚ) * ((([(0:ℚ)].length : Nat) : ℚ) * 1) = 8 := by norm_num
    rw [harg, solveZone_singleton_capped 8 (by norm_num)]
  unfold build_zone_stage_threshold_raster
  rw [if_neg (not_not_intro hsg), hws, hzones,
    if_neg (List.cons_ne_nil 1 []), hQm, hz2h]
  rfl

theorem build_eval_zero_rain :
    build_zone_stage_threshold_raster handOne wshedOne 0 RunoffMode.CN 90
      (1/5) (4/5) 1 =
      Except.ok ([some (1/109951162777600)], [(1, 1/109951162777600)], 0) := by
  have hsg : same_grid handOne.meta wshedOne.meta := ⟨rfl, rfl, rfl⟩
  have hws : ws_arr_of wshedOne = [1] := rfl
  have hzones : zones_of [1] = [1] := by decide
  have hhv : hv_of handOne.data [1] 1 = [0] := by decide
  have hz2h : zone_to_h_of handOne wshedOne 0 1 =
      [(1, 1/109951162777600)] := by
    unfold zone_to_h_of
    rw [hws, hzones]
    simp only [List.map_cons, List.map_nil, hhv]
    have harea : handOne.meta.cellWidth * handOne.meta.cellHeight = 1 := by
      norm_num [handOne]
    rw [harea]
    have harg : (0:ℚ) * ((([(0:ℚ)].length : Nat) : ℚ) * 1) = 0 := by norm_num
    rw [harg, solveZone_zero_target 0 [] 1 1 (by norm_num)]
    have hsis : List.insertionSort (fun a b => a ≤ b) [(0:ℚ)] = [0] := rfl
    rw [hsis]
    have hnp : npMax [(0:ℚ)] = 0 := rfl
    rw [hnp]
    norm_num
  unfold build_zone_stage_threshold_raster
  rw [if_neg (not_not_intro hsg), hws, hzones,
    if_neg (List.cons_ne_nil 1 []), runoff_zero_rain, hz2h]
  rfl

/-! ### Claim theorems -/

/-- Claim C1 (code-bug evidence): on a manifest chain exactly as
A2_Streams_Watersheds.py writes it — every output key present, including a
nonempty `drop_clean_nonull` — and with the filled DEM resolvable as the
`fill` entry of the A1 manifest, B1_HAND.py resolves the surface passed to
the vertical `FlowDistance` call to the cleaned percent-drop raster, not to
the filled DEM, because line 150 prefers the `drop_clean_nonull` entry of
the A2 manifest over every `fill` entry. -/
theorem c1_hand_surface_resolves_to_cleaned_drop :
    resolveSurfacePath
      (a2ManifestOutputs "Micro_drainage" "Main_channels" "DropClean_DEM"
        "DropClean_NoNull" "Slope_contingent" "Combine_streamCalcs"
        "StreamLink_r" "StreamOrder_r" "StreamBinary_fc" "Watershed_r"
        "Watershed_fc")
      (some [("fill", "Fill_DEM"), ("flowdir", "FlowDir_DEM"),
        ("drop", "Drop_DEM"), ("flowacc", "FlowAcc_DEM")]) =
      Except.ok "DropClean_NoNull" ∧
    ("DropClean_NoNull" : String) ≠ "Fill_DEM" := by
  exact ⟨rfl, by decide⟩

/-- Claim C2 (counterexample): at rainfall depth P = 1/10 > 0, CurveNumber
mode with CN = 100 returns 0, not P: the `S <= 0` guard of
`_runoff_depth_from_rainfall` fires because S = 0 at CN = 100. -/
theorem c2_cn100_counterexample :
    runoff_depth_from_rainfall (1/10) RunoffMode.CN 100 (1/5) (4/5) = 0 ∧
    runoff_depth_from_rainfall (1/10) RunoffMode.CN 100 (1/5) (4/5) ≠
      1/10 := by
  have h := runoff_cn100_eq_zero (1/10) (1/5) (4/5) (by norm_num)
  exact ⟨h, by rw [h]; norm_num⟩

/-- Claim C2 (amended): for every rainfall depth P > 0, the runoff model in
CurveNumber mode with CN = 100 returns Q = 0, not Q = P: S = 0 makes the
`S <= 0` guard fire before the runoff formula is evaluated. -/
theorem c2_cn100_amended (P ia_r c_eff : ℚ) (hP : 0 < P) :
    runoff_depth_from_rainfall P RunoffMode.CN 100 ia_r c_eff = 0 :=
  runoff_cn100_eq_zero P ia_r c_eff hP

/-- Witness for the amended claim C2 at the concrete depth P = 1/10. -/
theorem c2_cn100_amended_witness :
    0 < (1/10 : ℚ) ∧
    runoff_depth_from_rainfall (1/10) RunoffMode.CN 100 (1/5) (4/5) = 0 :=
  ⟨by norm_num, c2_cn100_amended (1/10) (1/5) (4/5) (by norm_num)⟩

/-- Claim C3 (counterexample): on the synthetic zone with sorted HAND
values [0, 0.1, 0.2, 0.3], cell area 1 and target volume 0.15, the solver
does NOT converge to 0.2 within 1e-3: the minimal height whose impounded
volume reaches 0.15 is 0.125, and the solved height is within 2^-40 of
it. -/
theorem c3_fixture_counterexample :
    ¬ |solveZone [0, 1/10, 2/10, 3/10] 1 (15/100) 1 - 2/10| ≤ 1/1000 := by
  obtain ⟨hge, hle⟩ := fixture_solve_bounds
  have hc : (31:ℚ)/100/2^40 ≤ 1/1000 := by norm_num
  intro habs
  rw [abs_le] at habs
  linarith [habs.1]

/-- Claim C3 (amended): on the synthetic zone with sorted HAND values
[0, 0.1, 0.2, 0.3], cell area 1 and target volume 0.15, the solver
converges to 0.125 (the true root, where 2·h − 0.1 = 0.15) within an
absolute tolerance of 1e-3. -/
theorem c3_fixture_amended :
    |solveZone [0, 1/10, 2/10, 3/10] 1 (15/100) 1 - 1/8| ≤ 1/1000 := by
  obtain ⟨hge, hle⟩ := fixture_solve_bounds
  have hc : (31:ℚ)/100/2^40 ≤ 1/1000 := by norm_num
  rw [abs_le]
  constructor <;> linarith

/-- Claim C4 (counterexample): a zero-rainfall scenario on a one-cell zone
with HAND = 0 yields a solved stage height of (0.01)/2^40 — positive, not
exactly 0 — and the rainfall flood mask sets the HAND = 0 cell to 1. -/
theorem c4_zero_rain_counterexample :
    build_zone_stage_threshold_raster handOne wshedOne 0 RunoffMode.CN 90
      (1/5) (4/5) 1 =
      Except.ok ([some (1/109951162777600)], [(1, 1/109951162777600)], 0) ∧
    (1/109951162777600 : ℚ) ≠ 0 ∧
    rainMaskCells handOne.data [some (1/109951162777600)] = [some 1] := by
  refine ⟨build_eval_zero_rain, by norm_num, ?_⟩
  show rainMaskCells [some 0] [some (1/109951162777600)] = [some 1]
  norm_num [rainMaskCells, conLessEq]

/-- Claim C4 (amended): `runoff_depth(0, …) = 0` in both modes, and with
target volume 0 the solver returns exactly
`min(cap, max(HAND) + 0.01) / 2^40` for a zone with finite HAND cells
(0 for a zone with none): the zero-rainfall stage heights are positive for
every nonempty zone, only vanishingly small, so cells whose HAND does not
exceed that height (for example HAND = 0 stream cells) are still set in the
mask. -/
theorem c4_zero_rain_amended :
    (∀ (mode : RunoffMode) (cn ia_r c_eff : ℚ),
      runoff_depth_from_rainfall 0 mode cn ia_r c_eff = 0) ∧
    (∀ a cap : ℚ, solveZone [] a 0 cap = 0) ∧
    (∀ (x : ℚ) (xs : List ℚ) (a cap : ℚ), 0 ≤ a →
      solveZone (x :: xs) a 0 cap =
        min cap (npMax (List.insertionSort (fun a b => a ≤ b) (x :: xs)) +
          1/100) / 2 ^ 40) :=
  ⟨runoff_zero_rain, fun a cap => solveZone_nil a 0 cap, solveZone_zero_target⟩

/-- Witness for the amended claim C4 on a single-cell zone with HAND = 0,
cell area 1 and cap 1. -/
theorem c4_zero_rain_amended_witness :
    runoff_depth_from_rainfall 0 RunoffMode.CN 90 (1/5) (4/5) = 0 ∧
    (0:ℚ) ≤ 1 ∧
    solveZone [0] 1 0 1 =
      min 1 (npMax (List.insertionSort (fun a b => a ≤ b) [(0:ℚ)]) + 1/100) /
        2 ^ 40 :=
  ⟨c4_zero_rain_amended.1 RunoffMode.CN 90 (1/5) (4/5), by norm_num,
   c4_zero_rain_amended.2.2 0 [] 1 1 (by norm_num)⟩

/-- Claim C5 (counterexample): a one-cell zone with HAND = 0, cell area 1,
target volume 10 and max-stage cap 1: the impounded volume at the cap is
1 < 10, yet the solver assigns 0.01 = max(HAND) + 0.01, not the cap 1,
because the upper bracket is `min(cap, max(HAND) + 0.01)`. -/
theorem c5_cap_counterexample :
    volume_at [0] 1 1 < 10 ∧ solveZone [0] 1 10 1 = 1/100 ∧
    (1/100 : ℚ) ≠ 1 := by
  refine ⟨?_, solveZone_singleton_capped 10 (by norm_num), by norm_num⟩
  rw [volume_at_cons_pos _ _ _ _ (by norm_num : (0:ℚ) ≤ 1), volume_at_nil]
  norm_num

/-- Claim C5 (amended): for every zone whose impounded volume at the upper
search bracket `h_hi = min(max_stage_cap, max(HAND) + 0.01)` is below the
target volume, the solver assigns exactly that bracket — which equals the
cap only when the cap does not exceed max(HAND) + 0.01 — and never a value
exceeding the cap. -/
theorem c5_cap_amended (x : ℚ) (xs : List ℚ) (a V cap : ℚ)
    (hbelow : volume_at (List.insertionSort (fun a b => a ≤ b) (x :: xs)) a
      (min cap (npMax (List.insertionSort (fun a b => a ≤ b) (x :: xs)) +
        1/100)) < V) :
    solveZone (x :: xs) a V cap =
      min cap (npMax (List.insertionSort (fun a b => a ≤ b) (x :: xs)) +
        1/100) ∧
    solveZone (x :: xs) a V cap ≤ cap := by
  rw [solveZone_cons, solveZoneSorted_capped _ _ _ _ hbelow]
  exact ⟨rfl, min_le_left _ _⟩

/-- Witness for the amended claim C5 on a one-cell zone with HAND = 0,
cell area 1, target volume 10 and cap 1. -/
theorem c5_cap_amended_witness :
    volume_at (List.insertionSort (fun a b => a ≤ b) [(0:ℚ)]) 1
      (min 1 (npMax (List.insertionSort (fun a b => a ≤ b) [(0:ℚ)]) +
        1/100)) < 10 ∧
    solveZone [0] 1 10 1 =
      min 1 (npMax (List.insertionSort (fun a b => a ≤ b) [(0:ℚ)]) +
        1/100) ∧
    solveZone [0] 1 10 1 ≤ 1 := by
  have hc : volume_at (List.insertionSort (fun a b => a ≤ b) [(0:ℚ)]) 1
      (min 1 (npMax (List.insertionSort (fun a b => a ≤ b) [(0:ℚ)]) +
        1/100)) < 10 := by
    have hs : List.insertionSort (fun a b => a ≤ b) [(0:ℚ)] = [0] := rfl
    have hnp : npMax [(0:ℚ)] = 0 := rfl
    rw [hs, hnp, (by norm_num : min (1:ℚ) (0 + 1/100) = 1/100),
      volume_at_cons_pos _ _ _ _ (by norm_num : (0:ℚ) ≤ 1/100), volume_at_nil]
    norm_num
  obtain ⟨h1, h2⟩ := c5_cap_amended 0 [] 1 10 1 hc
  exact ⟨hc, h1, h2⟩

/-- Claim C6 (counterexample): a HAND raster and a Watershed raster that do
NOT share identical grid geometry — their cell heights are 1 and 5 — pass
the source's `same_grid` test, which compares only mean cell width, raster
width and raster height, and the solver runs to completion instead of
raising `GridMismatchError`. -/
theorem c6_grid_counterexample :
    ¬ identical_grid_geometry handFix.meta wshedFixTallCell.meta ∧
    build_zone_stage_threshold_raster handFix wshedFixTallCell 10
      RunoffMode.Coefficient 90 (1/5) (4/5) 1 =
      Except.ok ([some (1/100), none], [(1, 1/100)], 8) := by
  constructor
  · intro h
    obtain ⟨-, h2, -, -⟩ := h
    norm_num [handFix, wshedFixTallCell] at h2
  · exact build_eval_fix ⟨1, 5, 2, 1⟩ rfl rfl rfl

/-- Claim C6 (amended): the zonal solver raises `GridMismatchError` — and
produces no output — exactly when HAND and Watershed differ in mean cell
width, raster width or raster height; when those three agree it proceeds
past the geometry check (cell height is not compared). -/
theorem c6_grid_amended (hand : HandRaster) (wshed : ZoneRaster) (P : ℚ)
    (mode : RunoffMode) (cn ia_r c_eff cap : ℚ) :
    (¬ same_grid hand.meta wshed.meta →
      build_zone_stage_threshold_raster hand wshed P mode cn ia_r c_eff cap =
        Except.error gridMismatchMsg) ∧
    (same_grid hand.meta wshed.meta →
      build_zone_stage_threshold_raster hand wshed P mode cn ia_r c_eff cap ≠
        Except.error gridMismatchMsg) := by
  constructor
  · intro h
    unfold build_zone_stage_threshold_raster
    rw [if_pos h]
  · intro h
    unfold build_zone_stage_threshold_raster
    rw [if_neg (not_not_intro h)]
    by_cases hz : zones_of (ws_arr_of wshed) = []
    · rw [if_pos hz]
      intro hcontra
      rw [Except.error.injEq] at hcontra
      exact absurd hcontra (by decide)
    · rw [if_neg hz]
      simp

/-- Witness for the amended claim C6: rasters of widths 2 and 3 make the
builder fail with the grid-mismatch error. -/
theorem c6_grid_amended_witness :
    ¬ same_grid handFix.meta wshedFixWide.meta ∧
    build_zone_stage_threshold_raster handFix wshedFixWide 10
      RunoffMode.Coefficient 90 (1/5) (4/5) 1 =
      Except.error gridMismatchMsg := by
  have hns : ¬ same_grid handFix.meta wshedFixWide.meta := by
    intro h
    obtain ⟨-, h2, -⟩ := h
    norm_num [handFix, wshedFixWide] at h2
  exact ⟨hns, (c6_grid_amended handFix wshedFixWide 10 RunoffMode.Coefficient
    90 (1/5) (4/5) 1).1 hns⟩

/-- Claim C7 (confirmed): `_runoff_depth_from_rainfall` coincides with the
spec's reference definition on every input — same guards, same formula,
same order of operations; both are pure functions of their arguments. -/
theorem c7_runoff_matches_spec (P : ℚ) (mode : RunoffMode)
    (cn ia_r c_eff : ℚ) :
    runoff_depth_from_rainfall P mode cn ia_r c_eff =
      runoff_depth_spec P mode cn ia_r c_eff := by
  cases mode <;> rfl

/-- Claim C8 (confirmed): for fixed sorted zone data and positive cell
area, `volume_at` is monotonically non-decreasing in the height: h1 < h2
implies volume_at(h1) ≤ volume_at(h2). -/
theorem c8_volume_at_monotone (hv : List ℚ) (a h1 h2 : ℚ)
    (hs : hv.Sorted (fun x y => x ≤ y)) (ha : 0 < a) (h12 : h1 < h2) :
    volume_at hv a h1 ≤ volume_at hv a h2 := by
  clear hs
  induction hv with
  | nil => simp [volume_at_nil]
  | cons x xs ih =>
    by_cases hx1 : x ≤ h1
    · have hx2 : x ≤ h2 := le_trans hx1 h12.le
      rw [volume_at_cons_pos _ _ _ _ hx1, volume_at_cons_pos _ _ _ _ hx2]
      have hterm : a * (h1 - x) ≤ a * (h2 - x) :=
        mul_le_mul_of_nonneg_left (by linarith) ha.le
      linarith
    · by_cases hx2 : x ≤ h2
      · rw [volume_at_cons_neg _ _ _ _ hx1, volume_at_cons_pos _ _ _ _ hx2]
        have h0 : 0 ≤ volume_at xs a h2 := volume_at_nonneg xs a h2 ha.le
        have hterm : 0 ≤ a * (h2 - x) := mul_nonneg ha.le (by linarith)
        linarith
      · rw [volume_at_cons_neg _ _ _ _ hx1, volume_at_cons_neg _ _ _ _ hx2]

/-- Witness for claim C8 on the sorted zone [0, 0.1] with cell area 1 and
heights 0.05 < 0.1. -/
theorem c8_volume_at_monotone_witness :
    List.Sorted (fun x y => x ≤ y) [(0:ℚ), 1/10] ∧ (0:ℚ) < 1 ∧
    (1/20 : ℚ) < 1/10 ∧
    volume_at [0, 1/10] 1 (1/20) ≤ volume_at [0, 1/10] 1 (1/10) := by
  have hs : List.Sorted (fun x y => x ≤ y) [(0:ℚ), 1/10] := by
    norm_num [List.sorted_cons]
  exact ⟨hs, by norm_num, by norm_num,
    c8_volume_at_monotone [0, 1/10] 1 (1/20) (1/10) hs (by norm_num)
      (by norm_num)⟩

/-- Claim C9 (confirmed): for every zone — empty, capped, or bisected — the
solved stage height lies in [0, max_stage_cap] whenever the HAND values are
nonnegative (the data model's nominal HAND invariant) and the cap is
nonnegative, for any cell area and any target volume (hence any rainfall
depth). -/
theorem c9_stage_height_bounded (hv_raw : List ℚ) (a V cap : ℚ)
    (hnn : ∀ x ∈ hv_raw, 0 ≤ x) (hcap : 0 ≤ cap) :
    0 ≤ solveZone hv_raw a V cap ∧ solveZone hv_raw a V cap ≤ cap :=
  solveZone_bounds hv_raw a V cap hnn hcap

/-- Witness for claim C9 on the zone [0, 0.3] with cell area 1, target
volume 5 and cap 1. -/
theorem c9_stage_height_bounded_witness :
    (∀ x ∈ [(0:ℚ), 3/10], 0 ≤ x) ∧ (0:ℚ) ≤ 1 ∧
    0 ≤ solveZone [0, 3/10] 1 5 1 ∧ solveZone [0, 3/10] 1 5 1 ≤ 1 := by
  have hnn : ∀ x ∈ [(0:ℚ), 3/10], 0 ≤ x := by
    intro x hx
    rcases List.mem_cons.1 hx with h | h
    · rw [h]
    · rcases List.mem_cons.1 h with h2 | h2
      · rw [h2]; norm_num
      · exact absurd h2 (List.not_mem_nil x)
  obtain ⟨h1, h2⟩ := c9_stage_height_bounded [0, 3/10] 1 5 1 hnn (by norm_num)
  exact ⟨hnn, by norm_num, h1, h2⟩

/-- Claim C10 (confirmed): every watershed cell whose read zone id — with
nodata read as the sentinel -2147483648 — is negative is excluded from
stage-height solving: every solved zone id is nonnegative, the cell is
nodata in the per-zone stage-height raster, and the cell is not 1 in the
rainfall flood mask. -/
theorem c10_negative_zones_excluded (hand : HandRaster) (wshed : ZoneRaster)
    (P : ℚ) (mode : RunoffMode) (cn ia_r c_eff cap : ℚ)
    (thresh : List (Option ℚ)) (z2h : List (Int × ℚ)) (Qm : ℚ)
    (hok : build_zone_stage_threshold_raster hand wshed P mode cn ia_r c_eff
      cap = Except.ok (thresh, z2h, Qm))
    (i : Nat)
    (hneg : (wshed.data.getD i none).getD ws_nodata_sentinel < 0) :
    (∀ p ∈ z2h, 0 ≤ p.1) ∧ thresh.getD i none = none ∧
    (rainMaskCells hand.data thresh).getD i none ≠ some 1 := by
  obtain ⟨hthresh, hz2h⟩ := build_ok_inv hand wshed P mode cn ia_r c_eff cap
    thresh z2h Qm hok
  have hkeys : ∀ p ∈ z2h, 0 ≤ p.1 := by
    rw [hz2h]
    exact zone_to_h_keys_nonneg hand wshed _ cap
  have hcell : thresh.getD i none = none := by
    rw [hthresh, getD_map_of_none_fixed _ _ i rfl]
    cases hc : wshed.data.getD i none with
    | none => rfl
    | some z =>
      rw [hc] at hneg
      rw [Option.getD_some] at hneg
      exact lookup_eq_none_of_keys_nonneg z2h hkeys z hneg
  refine ⟨hkeys, hcell, ?_⟩
  rw [rainMask_getD_none hand.data thresh i hcell]
  simp

/-- Witness for claim C10: a two-cell watershed raster whose second cell is
nodata (read as the sentinel, hence negative): the stage raster is nodata
there and the mask is not 1 there. -/
theorem c10_negative_zones_excluded_witness :
    (wshedFix.data.getD 1 none).getD ws_nodata_sentinel < 0 ∧
    (∀ p ∈ [((1:Int), (1/100:ℚ))], 0 ≤ p.1) ∧
    ([some (1/100:ℚ), none].getD 1 none = none) ∧
    (rainMaskCells handFix.data [some (1/100), none]).getD 1 none ≠
      some 1 := by
  have hneg : (wshedFix.data.getD 1 none).getD ws_nodata_sentinel < 0 := by
    decide
  obtain ⟨h1, h2, h3⟩ := c10_negative_zones_excluded handFix wshedFix 10
    RunoffMode.Coefficient 90 (1/5) (4/5) 1 [some (1/100), none]
    [(1, 1/100)] 8 (build_eval_fix ⟨1, 1, 2, 1⟩ rfl rfl rfl) 1 hneg
  exact ⟨hneg, h1, h2, h3⟩

end FloodMap
